import Mathlib

/-!
Verification of the `pyri_tooltip` tooltip widget library.

This file gives a shallow embedding of the two correctness-critical
subsystems of the repository:

* the interaction/context resolver `update_tooltip_context`
  (`src/context.rs`, the current revision), which runs a per-frame
  finite-state machine over states Inactive / Delayed / Active /
  Dismissed, ticking millisecond timers and arbitrating activation
  delay, dismissal and transfer between hoverable elements;
* the historical revision of the same resolver (`src/lib.rs`), embedded
  separately for comparison;
* the placement engine `place_tooltip` (`src/placement.rs`), which turns
  an anchor + offset + clamp specification into an on-screen position.

Modelling conventions:

* Entity identifiers are `Nat`.
* `Vec2` (f32 pairs in the source) is embedded with exact rational
  coordinates; the geometric claims under scrutiny concern the algebra
  of the computations, not float rounding.
* `u16` millisecond timers are `Nat`; Rust's `saturating_sub` is `Nat`
  subtraction (which saturates at zero), and the cast
  `as_millis() as u16` is reduction modulo `2 ^ 16 = 65536`, written
  explicitly where it occurs.
* `i8` transfer group/layer values are `Int` (only equality and order
  are ever used on them).
* The camera loop of the resolver (find the first camera whose render
  target is a focused window with a known cursor position) is a
  host-engine lookup; its outcome is passed in as an
  `Option Vec2` per-frame cursor input.
* The UI stack is passed as the list of entries in the order the scan
  visits them (`ui_stack.uinodes.iter().rev()`, i.e. topmost first),
  each with the result of `interaction_query.get` (`none` when the
  element has no tooltip or no interaction state).
* `RichText` payloads are opaque strings: the resolver only clones and
  compares them.
-/

/-- 2D vector with exact rational coordinates (models `bevy_math::Vec2`). -/
structure Vec2 where
  x : ℚ
  y : ℚ
deriving DecidableEq

/-- `Vec2::distance_squared` from `bevy_math`. -/
def Vec2.distance_squared (a b : Vec2) : ℚ :=
  (a.x - b.x) * (a.x - b.x) + (a.y - b.y) * (a.y - b.y)

/-- `TooltipState` (`src/context.rs`): the resolver's finite states. -/
inductive TooltipState where
  | Inactive
  | Delayed
  | Active
  | Dismissed
deriving DecidableEq

/-- `bevy_ui::Interaction`: per-element interaction status. -/
inductive Interaction where
  | Pressed
  | Hovered
  | None
deriving DecidableEq

/-- `bevy_ui::Val`: a pixel/percentage length. -/
inductive Val where
  | Auto
  | Px (value : ℚ)
  | Percent (value : ℚ)
  | Vw (value : ℚ)
  | Vh (value : ℚ)
  | VMin (value : ℚ)
  | VMax (value : ℚ)
deriving DecidableEq

/-- `Val::resolve(scale_factor, physical_base_value, physical_target_size)`
from `bevy_ui`: `Auto` does not resolve, `Px` scales by the scale factor,
the percentage variants resolve against the base value / target size. -/
def Val.resolve (v : Val) (scale_factor physical_base_value : ℚ)
    (physical_target_size : Vec2) : Option ℚ :=
  match v with
  | .Auto => none
  | .Px value => some (value * scale_factor)
  | .Percent value => some (physical_base_value * value / 100)
  | .Vw value => some (physical_target_size.x * value / 100)
  | .Vh value => some (physical_target_size.y * value / 100)
  | .VMin value =>
      some (min physical_target_size.x physical_target_size.y * value / 100)
  | .VMax value =>
      some (max physical_target_size.x physical_target_size.y * value / 100)

/-- `bevy_ui::UiRect`: four independently resolvable edge insets. -/
structure UiRect where
  left : Val
  right : Val
  top : Val
  bottom : Val
deriving DecidableEq

/-- `TargetPoint` (`src/placement.rs`): where the tooltip's anchor point is
placed — a fixed anchor on the target element, or the cursor position
(optionally followed continuously while active). An `Anchor` is embedded
as its normalized vector (`Anchor::as_vec`), e.g. top-left is
`(-1/2, 1/2)`. -/
inductive TargetPoint where
  | Fixed (anchor : Vec2)
  | Cursor (follow : Bool)
deriving DecidableEq

/-- `TooltipPlacement` (`src/placement.rs`): the placement configuration.
`anchor_point` is the anchor on the tooltip entity, as its normalized
vector. -/
structure TooltipPlacement where
  anchor_point : Vec2
  target_point : TargetPoint
  offset_x : Val
  offset_y : Val
  clamp_padding : UiRect
deriving DecidableEq

/-- `TooltipActivation`: activation delay in milliseconds (`u16` in the
source, so `< 65536`) and the reset-on-cursor-move flag. -/
structure TooltipActivation where
  delay : Nat
  reset_delay_on_cursor_move : Bool
deriving DecidableEq

/-- `TooltipDismissal` as used by `src/context.rs`
(`tooltip.dismissal.on_distance`, `tooltip.dismissal.on_click`): the
distance threshold from the activation point beyond which an active
tooltip is dismissed (squared when snapshotted into the context), and
whether clicking the target dismisses the tooltip. -/
structure TooltipDismissal where
  on_distance : ℚ
  on_click : Bool
deriving DecidableEq

/-- `TooltipTransfer` (`src/lib.rs` lines 275-284): conditions for skipping
the next tooltip's activation delay. -/
structure TooltipTransfer where
  group : Option Int
  layer : Int
  timeout : Nat
  from_active : Bool
deriving DecidableEq

/-- `TooltipContent`: the tooltip's displayed content — rich text shown in
the shared primary tooltip entity, or a fully custom entity. -/
inductive TooltipContent where
  | Primary (text : String)
  | Custom (id : Nat)
deriving DecidableEq

/-- `Tooltip` (current revision): the per-element tooltip specification. -/
structure Tooltip where
  activation : TooltipActivation
  dismissal : TooltipDismissal
  transfer : TooltipTransfer
  placement : TooltipPlacement
  content : TooltipContent
deriving DecidableEq

/-- The snapshot taken when a tooltip becomes the governing one
(`src/context.rs` lines 161-162 and 181-182): the spec is cloned and its
dismissal distance is squared
(`ctx.tooltip.dismissal.on_distance *= ctx.tooltip.dismissal.on_distance`). -/
def squared_snapshot (t : Tooltip) : Tooltip :=
  { t with
    dismissal :=
      { t.dismissal with
        on_distance := t.dismissal.on_distance * t.dismissal.on_distance } }

/-- The transfer-group test of `src/context.rs` line 172:
`matches!((ctx.tooltip.transfer.group, tooltip.transfer.group), (Some(x), Some(y)) if x == y)`. -/
def transfer_groups_match (a b : Option Int) : Bool :=
  match a, b with
  | some x, some y => x = y
  | _, _ => false

/-- `TooltipContext` (`src/context.rs` lines 47-58): the singleton record
mutated once per frame by the resolver. -/
structure TooltipContext where
  state : TooltipState
  target : Nat
  timer : Nat
  cursor_pos : Vec2
  tooltip : Tooltip
deriving DecidableEq

/-- One entry of the UI stack as seen by the resolver's scan: the entity id
together with the result of `interaction_query.get(entity)`. -/
structure StackEntry where
  entity : Nat
  hit : Option (Tooltip × Interaction)
deriving DecidableEq

/-- The messages written by one resolver frame: `HideTooltip { entity }`
(if any) and whether `ShowTooltip` was written. -/
structure FrameMessages where
  hide_tooltip : Option Nat
  show_tooltip : Bool
deriving DecidableEq

/-- Which entity displays the given content (`src/context.rs` lines 86-89):
the primary tooltip container, or the custom entity. -/
def content_entity (primary_container : Nat) (c : TooltipContent) : Nat :=
  match c with
  | .Primary _ => primary_container
  | .Custom id => id

/-- Cursor-movement phase of `update_tooltip_context` (`src/context.rs`
lines 91-133). `cursor` is the cursor position of the first camera whose
render target is a focused window with a known cursor position (`none` if
there is no such camera). In order: reset the activation delay on cursor
move while `Delayed`; dismiss if the cursor left the activation radius
while `Active`; update the stored cursor position unless the tooltip is
`Active` and is not a follow-cursor tooltip. -/
def cursor_update (ctx : TooltipContext) (cursor : Option Vec2) :
    TooltipContext :=
  match cursor with
  | none => ctx
  | some cursor_pos =>
    let ctx :=
      if ctx.cursor_pos ≠ cursor_pos ∧ ctx.state = TooltipState.Delayed ∧
          ctx.tooltip.activation.reset_delay_on_cursor_move = true then
        { ctx with timer := ctx.tooltip.activation.delay }
      else ctx
    let ctx :=
      if ctx.state = TooltipState.Active ∧
          ctx.cursor_pos.distance_squared cursor_pos >
            ctx.tooltip.dismissal.on_distance then
        { ctx with state := TooltipState.Dismissed }
      else ctx
    if ctx.state ≠ TooltipState.Active ∨
        ctx.tooltip.placement.target_point = TargetPoint.Cursor true then
      { ctx with cursor_pos := cursor_pos }
    else ctx

/-- Timer phase of `update_tooltip_context` (`src/context.rs` lines
135-141): if the state is `Inactive` or `Delayed`, subtract the frame
delta cast to `u16` (`time.delta().as_millis() as u16`, i.e. the
millisecond delta reduced modulo `2 ^ 16`) from the timer with saturation
at zero; if the state was `Delayed` and the timer reached zero, transition
to `Active`. -/
def timer_tick (ctx : TooltipContext) (delta_millis : Nat) : TooltipContext :=
  if ctx.state = TooltipState.Inactive ∨ ctx.state = TooltipState.Delayed then
    let t := ctx.timer - delta_millis % 65536
    if ctx.state = TooltipState.Delayed ∧ t = 0 then
      { ctx with timer := t, state := TooltipState.Active }
    else
      { ctx with timer := t }
  else ctx

/-- The body of the scan once a qualifying non-`Pressed`-dismissing entry is
hit (`src/context.rs` lines 159-184): if the entry is already the tracked
target and the state is not `Inactive`, refresh the snapshot and stop;
otherwise switch to the new target — skip the delay if the new element's
delay is zero or the pending-transfer condition holds (state `Inactive`,
leftover timer nonzero, previous transfer layer ≥ new transfer layer, and
shared transfer group or same target), reset the timer to the new delay
and snapshot the new spec. Note the state is computed before `ctx.target`
is overwritten. -/
def scan_hit (ctx : TooltipContext) (entity : Nat) (tooltip : Tooltip) :
    TooltipContext × Bool :=
  if ctx.target = entity ∧ ctx.state ≠ TooltipState.Inactive then
    ({ ctx with tooltip := squared_snapshot tooltip }, true)
  else
    let state :=
      if tooltip.activation.delay = 0 ∨
          (ctx.state = TooltipState.Inactive ∧ 0 < ctx.timer ∧
            tooltip.transfer.layer ≤ ctx.tooltip.transfer.layer ∧
            (transfer_groups_match ctx.tooltip.transfer.group
                tooltip.transfer.group = true ∨
              ctx.target = entity)) then
        TooltipState.Active
      else
        TooltipState.Delayed
    ({ ctx with
        state := state
        target := entity
        timer := tooltip.activation.delay
        tooltip := squared_snapshot tooltip }, true)

/-- The target scan of `update_tooltip_context` (`src/context.rs` lines
143-185): walk the stack topmost-first; skip entries without a tooltip or
with interaction `None`; for the first qualifying entry, either force
`Dismissed` (pressed with click-dismissal, copying only the transfer
rule), or process it via `scan_hit`. Returns the updated context and the
`found_target` flag. -/
def scan_stack (ctx : TooltipContext) : List StackEntry → TooltipContext × Bool
  | [] => (ctx, false)
  | e :: rest =>
    match e.hit with
    | none => scan_stack ctx rest
    | some (tooltip, interaction) =>
      match interaction with
      | .Pressed =>
        if tooltip.dismissal.on_click = true then
          ({ ctx with
              target := e.entity
              state := TooltipState.Dismissed
              tooltip := { ctx.tooltip with transfer := tooltip.transfer } },
            true)
        else
          scan_hit ctx e.entity tooltip
      | .None => scan_stack ctx rest
      | .Hovered => scan_hit ctx e.entity tooltip

/-- The no-target branch of `update_tooltip_context` (`src/context.rs`
lines 187-196): when the scan found nothing and the state is not
`Inactive`, set the timer to the outgoing tooltip's transfer timeout if
the outgoing state was `Active` or its transfer rule does not require
from-active, else zero; then transition to `Inactive`. -/
def drop_target (ctx : TooltipContext) : TooltipContext :=
  { ctx with
    timer :=
      if ctx.state = TooltipState.Active ∨
          ctx.tooltip.transfer.from_active = false then
        ctx.tooltip.transfer.timeout
      else 0
    state := TooltipState.Inactive }

/-- One frame of the resolver `update_tooltip_context` (`src/context.rs`
lines 72-208): cursor phase, timer phase, target scan, no-target branch,
then message emission — if the active flag changed, the target changed, or
a qualifying target was found, write `HideTooltip` for the previously
shown entity (only if the old state was `Active`) and `ShowTooltip` (only
if the new state is `Active`). -/
def update_tooltip_context (primary_container : Nat) (ctx : TooltipContext)
    (cursor : Option Vec2) (delta_millis : Nat)
    (ui_stack : List StackEntry) : TooltipContext × FrameMessages :=
  let old_active : Bool := decide (ctx.state = TooltipState.Active)
  let old_target := ctx.target
  let old_entity := content_entity primary_container ctx.tooltip.content
  let ctx1 := cursor_update ctx cursor
  let ctx2 := timer_tick ctx1 delta_millis
  let scanned := scan_stack ctx2 ui_stack
  let found_target := scanned.2
  let ctx3 :=
    if found_target = false ∧ scanned.1.state ≠ TooltipState.Inactive then
      drop_target scanned.1
    else scanned.1
  let new_active : Bool := decide (ctx3.state = TooltipState.Active)
  let msgs : FrameMessages :=
    if old_active ≠ new_active ∨ old_target ≠ ctx3.target ∨
        found_target = true then
      { hide_tooltip := if old_active = true then some old_entity else none
        show_tooltip := new_active }
    else
      { hide_tooltip := none, show_tooltip := false }
  (ctx3, msgs)

/-! ### The historical resolver (`src/lib.rs`)

The repository also contains an earlier revision of the same resolver,
`update_tooltip_context` in `src/lib.rs` (lines 436-559), with a
differently-shaped spec type (`dismiss_radius` lives inside
`TooltipActivation`, the content is called `entity`, placement has no
follow-cursor concept and uses an optional target anchor). It is embedded
below with an `old_` prefix. -/

/-- `TooltipActivation` of the historical revision (`src/lib.rs` lines
205-213): delay, reset-on-move flag, and the dismissal radius. -/
structure OldTooltipActivation where
  delay : Nat
  reset_delay_on_cursor_move : Bool
  dismiss_radius : ℚ
deriving DecidableEq

/-- `TooltipPlacement` of the historical revision (`src/lib.rs` lines
313-324): tooltip anchor, optional target anchor (`none` = cursor),
offsets and clamp padding. Anchors are embedded as their normalized
vectors. -/
structure OldTooltipPlacement where
  tooltip_anchor : Vec2
  target_anchor : Option Vec2
  offset_x : Val
  offset_y : Val
  clamp_padding : UiRect
deriving DecidableEq

/-- `TooltipEntity` of the historical revision (`src/lib.rs` lines
391-396). -/
inductive OldTooltipEntity where
  | Primary (text : String)
  | Custom (id : Nat)
deriving DecidableEq

/-- `Tooltip` of the historical revision (`src/lib.rs` lines 141-150). -/
structure OldTooltip where
  activation : OldTooltipActivation
  transfer : TooltipTransfer
  placement : OldTooltipPlacement
  entity : OldTooltipEntity
deriving DecidableEq

/-- `TooltipContext` of the historical revision (`src/lib.rs` lines
405-420). -/
structure OldTooltipContext where
  state : TooltipState
  target : Nat
  timer : Nat
  cursor_pos : Vec2
  activation : OldTooltipActivation
  transfer : TooltipTransfer
  entity : OldTooltipEntity
deriving DecidableEq

/-- A UI stack entry as seen by the historical resolver. -/
structure OldStackEntry where
  entity : Nat
  hit : Option (OldTooltip × Interaction)
deriving DecidableEq

/-- Which entity displays the given content in the historical revision
(`src/lib.rs` lines 450-453). -/
def old_content_entity (primary_container : Nat) (c : OldTooltipEntity) :
    Nat :=
  match c with
  | .Primary _ => primary_container
  | .Custom id => id

/-- Cursor-movement phase of the historical resolver (`src/lib.rs` lines
455-489): reset on move while `Delayed`; dismiss while `Active` when the
squared distance exceeds `ctx.activation.dismiss_radius`; update the
stored cursor position whenever not `Active` (there is no follow-cursor
concept in this revision). -/
def old_cursor_update (ctx : OldTooltipContext) (cursor : Option Vec2) :
    OldTooltipContext :=
  match cursor with
  | none => ctx
  | some cursor_pos =>
    let ctx :=
      if ctx.cursor_pos ≠ cursor_pos ∧ ctx.state = TooltipState.Delayed ∧
          ctx.activation.reset_delay_on_cursor_move = true then
        { ctx with timer := ctx.activation.delay }
      else ctx
    let ctx :=
      if ctx.state = TooltipState.Active ∧
          ctx.cursor_pos.distance_squared cursor_pos >
            ctx.activation.dismiss_radius then
        { ctx with state := TooltipState.Dismissed }
      else ctx
    if ctx.state ≠ TooltipState.Active then
      { ctx with cursor_pos := cursor_pos }
    else ctx

/-- Timer phase of the historical resolver (`src/lib.rs` lines 491-497):
identical to the current revision. -/
def old_timer_tick (ctx : OldTooltipContext) (delta_millis : Nat) :
    OldTooltipContext :=
  if ctx.state = TooltipState.Inactive ∨ ctx.state = TooltipState.Delayed then
    let t := ctx.timer - delta_millis % 65536
    if ctx.state = TooltipState.Delayed ∧ t = 0 then
      { ctx with timer := t, state := TooltipState.Active }
    else
      { ctx with timer := t }
  else ctx

/-- The body of the historical scan for a `Hovered` entry (`src/lib.rs`
lines 514-539): on the same target (state not `Inactive`), stop without
touching the snapshot; otherwise `ctx.target = entity` is assigned
*before* the new state is computed, so the `ctx.target == entity` disjunct
of the transfer condition always holds and the group test is never
decisive. The snapshot squares `dismiss_radius`. -/
def old_scan_hit (ctx : OldTooltipContext) (entity : Nat) (tooltip : OldTooltip) :
    OldTooltipContext × Bool :=
  if ¬(ctx.state = TooltipState.Inactive ∨ ctx.target ≠ entity) then
    (ctx, true)
  else
    let ctx := { ctx with target := entity }
    let state :=
      if tooltip.activation.delay = 0 ∨
          (ctx.state = TooltipState.Inactive ∧ 0 < ctx.timer ∧
            tooltip.transfer.layer ≤ ctx.transfer.layer ∧
            (transfer_groups_match ctx.transfer.group
                tooltip.transfer.group = true ∨
              ctx.target = entity)) then
        TooltipState.Active
      else
        TooltipState.Delayed
    ({ ctx with
        state := state
        timer := tooltip.activation.delay
        activation :=
          { tooltip.activation with
            dismiss_radius :=
              tooltip.activation.dismiss_radius *
                tooltip.activation.dismiss_radius }
        transfer := tooltip.transfer
        entity := tooltip.entity }, true)

/-- The target scan of the historical resolver (`src/lib.rs` lines
499-539): `Pressed` always forces `Dismissed` (there is no click-dismissal
flag in this revision); `None` entries are skipped. -/
def old_scan_stack (ctx : OldTooltipContext) :
    List OldStackEntry → OldTooltipContext × Bool
  | [] => (ctx, false)
  | e :: rest =>
    match e.hit with
    | none => old_scan_stack ctx rest
    | some (tooltip, interaction) =>
      match interaction with
      | .Pressed =>
        ({ ctx with
            target := e.entity
            state := TooltipState.Dismissed
            transfer := tooltip.transfer }, true)
      | .None => old_scan_stack ctx rest
      | .Hovered => old_scan_hit ctx e.entity tooltip

/-- The no-target branch of the historical resolver (`src/lib.rs` lines
541-549): identical logic to the current revision, reading the transfer
rule directly off the context. -/
def old_drop_target (ctx : OldTooltipContext) : OldTooltipContext :=
  { ctx with
    timer :=
      if ctx.state = TooltipState.Active ∨ ctx.transfer.from_active = false then
        ctx.transfer.timeout
      else 0
    state := TooltipState.Inactive }

/-- One frame of the historical resolver (`src/lib.rs` lines 436-559). The
message emission differs from the current revision: it fires only when the
active flag or the target changed (not on every found-target frame), and
it writes `HideTooltip` unconditionally inside that branch, even when the
old state was not `Active`. -/
def old_update_tooltip_context (primary_container : Nat)
    (ctx : OldTooltipContext) (cursor : Option Vec2) (delta_millis : Nat)
    (ui_stack : List OldStackEntry) : OldTooltipContext × FrameMessages :=
  let old_active : Bool := decide (ctx.state = TooltipState.Active)
  let old_target := ctx.target
  let old_entity := old_content_entity primary_container ctx.entity
  let ctx1 := old_cursor_update ctx cursor
  let ctx2 := old_timer_tick ctx1 delta_millis
  let scanned := old_scan_stack ctx2 ui_stack
  let found_target := scanned.2
  let ctx3 :=
    if found_target = false ∧ scanned.1.state ≠ TooltipState.Inactive then
      old_drop_target scanned.1
    else scanned.1
  let new_active : Bool := decide (ctx3.state = TooltipState.Active)
  let msgs : FrameMessages :=
    if old_active ≠ new_active ∨ old_target ≠ ctx3.target then
      { hide_tooltip := some old_entity
        show_tooltip := new_active }
    else
      { hide_tooltip := none, show_tooltip := false }
  (ctx3, msgs)

/-- Translate current tooltip content to the historical content type. -/
def to_old_entity (c : TooltipContent) : OldTooltipEntity :=
  match c with
  | .Primary s => .Primary s
  | .Custom i => .Custom i

/-- Translate a current tooltip spec to the historical spec shape: the
dismissal distance moves into the activation rule's `dismiss_radius`, a
fixed target point becomes a target anchor, a cursor target point becomes
`none`. -/
def to_old_tooltip (t : Tooltip) : OldTooltip :=
  { activation :=
      { delay := t.activation.delay
        reset_delay_on_cursor_move := t.activation.reset_delay_on_cursor_move
        dismiss_radius := t.dismissal.on_distance }
    transfer := t.transfer
    placement :=
      { tooltip_anchor := t.placement.anchor_point
        target_anchor :=
          match t.placement.target_point with
          | .Fixed a => some a
          | .Cursor _ => none
        offset_x := t.placement.offset_x
        offset_y := t.placement.offset_y
        clamp_padding := t.placement.clamp_padding }
    entity := to_old_entity t.content }

/-- Translate a current resolver context to the historical context shape
(the correspondence used to compare the two resolvers on identical
inputs). -/
def to_old_context (c : TooltipContext) : OldTooltipContext :=
  { state := c.state
    target := c.target
    timer := c.timer
    cursor_pos := c.cursor_pos
    activation :=
      { delay := c.tooltip.activation.delay
        reset_delay_on_cursor_move :=
          c.tooltip.activation.reset_delay_on_cursor_move
        dismiss_radius := c.tooltip.dismissal.on_distance }
    transfer := c.tooltip.transfer
    entity := to_old_entity c.tooltip.content }

/-! ### The placement engine (`src/placement.rs`) -/

/-- One axis of the clamping step of `place_tooltip` (`src/placement.rs`
lines 228-244): the allowed center range is
`[half_size + inset_low, size - half_size - inset_high]`; if the lower
bound exceeds the upper bound both collapse to their midpoint; the
position is then clamped into the (possibly collapsed) range
(`Vec2::clamp` is `max` with the lower bound then `min` with the upper
bound, per component). -/
def clamp_axis (half_size inset_low inset_high size pos : ℚ) : ℚ :=
  let low := half_size + inset_low
  let high := size - half_size - inset_high
  let low2 := if low > high then (low + high) / 2 else low
  let high2 := if low > high then (low + high) / 2 else high
  min (max pos low2) high2

/-- The position computation of `place_tooltip` (`src/placement.rs` lines
173-244), up to and including clamping and before the pixel-grid rounding
of lines 246-256. Inputs: the placement spec, the stored
cursor/activation position, the target entity's global translation and
computed size (its rect is `Rect::from_center_size(translation, size)`),
the tooltip entity's computed size, the viewport size, and the camera's
physical target size (the base value `Val`s resolve against, with scale
factor `1.0`). For a fixed target point the code adds `ctx.cursor_pos` to
the anchor position on the target rect; for a cursor target point it uses
`ctx.cursor_pos` directly. The tooltip's own anchor (size times anchor
vector, sign-flipped in x) is added, then the resolved offsets, then each
axis is clamped. -/
def place_tooltip_pos (placement : TooltipPlacement)
    (cursor_pos target_translation target_size tooltip_size viewport_size
      physical_base : Vec2) : Vec2 :=
  let pos : Vec2 :=
    match placement.target_point with
    | .Fixed target_anchor =>
      ⟨cursor_pos.x +
          (target_translation.x - target_size.x * target_anchor.x * (-1)),
        cursor_pos.y +
          (target_translation.y - target_size.y * target_anchor.y * 1)⟩
    | .Cursor _ => cursor_pos
  let tooltip_anchor : Vec2 :=
    ⟨tooltip_size.x * placement.anchor_point.x * (-1),
      tooltip_size.y * placement.anchor_point.y * 1⟩
  let pos : Vec2 := ⟨pos.x + tooltip_anchor.x, pos.y + tooltip_anchor.y⟩
  let offset_x :=
    (placement.offset_x.resolve 1 physical_base.x physical_base).getD 0
  let offset_y :=
    (placement.offset_y.resolve 1 physical_base.y physical_base).getD 0
  let pos : Vec2 := ⟨pos.x + offset_x, pos.y + offset_y⟩
  let pad_left :=
    (placement.clamp_padding.left.resolve 1 physical_base.x physical_base).getD 0
  let pad_right :=
    (placement.clamp_padding.right.resolve 1 physical_base.x physical_base).getD 0
  let pad_top :=
    (placement.clamp_padding.top.resolve 1 physical_base.y physical_base).getD 0
  let pad_bottom :=
    (placement.clamp_padding.bottom.resolve 1 physical_base.y physical_base).getD 0
  ⟨clamp_axis (tooltip_size.x / 2) pad_left pad_right viewport_size.x pos.x,
    clamp_axis (tooltip_size.y / 2) pad_top pad_bottom viewport_size.y pos.y⟩

/-- The top-left position written back by `place_tooltip`
(`src/placement.rs` lines 258-261: `pos - tooltip_rect.half_size()`),
taken before the pixel-grid rounding step so the geometric claims can be
stated exactly. -/
def place_tooltip_top_left (placement : TooltipPlacement)
    (cursor_pos target_translation target_size tooltip_size viewport_size
      physical_base : Vec2) : Vec2 :=
  let pos := place_tooltip_pos placement cursor_pos target_translation
    target_size tooltip_size viewport_size physical_base
  ⟨pos.x - tooltip_size.x / 2, pos.y - tooltip_size.y / 2⟩

/-! ### Well-formedness, iteration, auxiliary predicates -/

/-- The `u16` range constraints the Rust types impose on a tooltip spec:
the activation delay and the transfer timeout are 16-bit millisecond
values. -/
def TooltipWf (t : Tooltip) : Prop :=
  t.activation.delay < 65536 ∧ t.transfer.timeout < 65536

/-- The `u16` range constraints on a resolver context: the countdown timer
is a 16-bit millisecond value and the snapshotted spec is in range. -/
def ContextWf (c : TooltipContext) : Prop :=
  c.timer < 65536 ∧ TooltipWf c.tooltip

/-- Every tooltip spec reachable from the UI stack is in `u16` range. -/
def StackWf (l : List StackEntry) : Prop :=
  ∀ e ∈ l, ∀ t i, e.hit = some (t, i) → TooltipWf t

/-- Entries the scan steps over without processing: no tooltip/interaction
(`cq!` miss) or interaction `None`. -/
def skipped_entry (e : StackEntry) : Bool :=
  match e.hit with
  | none => true
  | some (_, Interaction.None) => true
  | some _ => false

/-- Iterate the resolver over a list of frame deltas with a stationary
cursor at `p` and a UI stack whose scan finds the single entry
`(target, spec, Hovered)` every frame. -/
def run_stationary (primary_container : Nat) (p : Vec2) (target : Nat)
    (spec : Tooltip) : TooltipContext → List Nat → TooltipContext
  | ctx, [] => ctx
  | ctx, d :: ds =>
    run_stationary primary_container p target spec
      (update_tooltip_context primary_container ctx (some p) d
        [⟨target, some (spec, Interaction.Hovered)⟩]).1 ds

/-! ### Auxiliary lemmas -/

theorem Vec2.distance_squared_self (a : Vec2) : a.distance_squared a = 0 := by
  unfold Vec2.distance_squared
  ring

theorem transfer_groups_match_iff (a b : Option Int) :
    transfer_groups_match a b = true ↔ ∃ g, a = some g ∧ b = some g := by
  cases a <;> cases b <;> simp [transfer_groups_match]
  exact eq_comm

theorem clamp_axis_of_le {half il ih size p : ℚ} (h1 : half + il ≤ p)
    (h2 : p ≤ size - half - ih) : clamp_axis half il ih size p = p := by
  unfold clamp_axis
  have hlh : ¬(half + il > size - half - ih) := not_lt.mpr (h1.trans h2)
  simp only [if_neg hlh]
  rw [max_eq_left h1, min_eq_left h2]

theorem scan_stack_append_skips (pre : List StackEntry)
    (l : List StackEntry) (ctx : TooltipContext)
    (h : ∀ e ∈ pre, skipped_entry e = true) :
    scan_stack ctx (pre ++ l) = scan_stack ctx l := by
  induction pre with
  | nil => rfl
  | cons e rest ih =>
    obtain ⟨ent, hit⟩ := e
    rcases hit with _ | ⟨t, i⟩
    · exact ih fun x hx => h x (List.mem_cons_of_mem _ hx)
    · cases i
      · exact absurd (h ⟨ent, some (t, Interaction.Pressed)⟩
          (List.mem_cons_self _ _)) (by simp [skipped_entry])
      · exact absurd (h ⟨ent, some (t, Interaction.Hovered)⟩
          (List.mem_cons_self _ _)) (by simp [skipped_entry])
      · exact ih fun x hx => h x (List.mem_cons_of_mem _ hx)

theorem scan_stack_skips (l : List StackEntry) (ctx : TooltipContext)
    (h : ∀ e ∈ l, skipped_entry e = true) : scan_stack ctx l = (ctx, false) := by
  have := scan_stack_append_skips l [] ctx h
  simpa using this

/-! ### C7: per-axis clamping with midpoint collapse -/

/-- C7: for each axis the placement engine clamps the tooltip center into
the range from `half_size + low-edge inset` to
`viewport_size - half_size - high-edge inset`; when the lower bound
exceeds the upper bound, both collapse to their midpoint and the resolved
center equals that midpoint regardless of the unclamped position.
(`clamp_axis` is the clamping step of `place_tooltip`,
`src/placement.rs` lines 228-244, applied by `place_tooltip_pos` to each
axis independently.) -/
theorem clamp_axis_range_and_collapse (half il ih size p : ℚ) :
    (half + il > size - half - ih →
      clamp_axis half il ih size p = ((half + il) + (size - half - ih)) / 2) ∧
    (half + il ≤ size - half - ih →
      half + il ≤ clamp_axis half il ih size p ∧
      clamp_axis half il ih size p ≤ size - half - ih) := by
  constructor
  · intro h
    unfold clamp_axis
    simp only [if_pos h]
    exact min_eq_right (le_max_right _ _)
  · intro h
    unfold clamp_axis
    simp only [if_neg (not_lt.mpr h)]
    exact ⟨le_min (le_max_right _ _) h, min_le_right _ _⟩

/-- Witness for C7: with a tooltip of half-width 10 in a viewport of width
15 (no insets) the range collapses and any unclamped position resolves to
the midpoint 15/2; with half-width 3 the range is proper and the result
respects the lower bound. -/
theorem clamp_axis_range_and_collapse_witness :
    clamp_axis 10 0 0 15 100 = 15 / 2 ∧ 3 ≤ clamp_axis 3 0 0 15 4 := by
  constructor
  · have h := (clamp_axis_range_and_collapse 10 0 0 15 100).1 (by norm_num)
    rw [h]; norm_num
  · have h := ((clamp_axis_range_and_collapse 3 0 0 15 4).2 (by norm_num)).1
    linarith

/-! ### C8: placement round-trip for top-left anchors -/

/-- The placement configuration of the round-trip scenario: tooltip anchor
top-left, fixed target point at the target's top-left anchor, zero
offsets, zero clamp padding. -/
def top_left_round_trip_placement : TooltipPlacement :=
  { anchor_point := ⟨-1/2, 1/2⟩
    target_point := TargetPoint.Fixed ⟨-1/2, 1/2⟩
    offset_x := Val.Px 0
    offset_y := Val.Px 0
    clamp_padding := ⟨Val.Px 0, Val.Px 0, Val.Px 0, Val.Px 0⟩ }

/-- Counterexample to C8: with tooltip anchor top-left, fixed top-left
target point, zero offsets and zero clamp padding, a target rect centered
at `(50, 50)` with size `(20, 20)` (so top-left `(40, 40)`), a `10 × 10`
tooltip in a `1000 × 1000` viewport, and the stored cursor/activation
position at `(100, 100)`, the placement engine computes top-left
`(140, 140)`, not the target's top-left `(40, 40)`: `place_tooltip` adds
`ctx.cursor_pos` to the fixed-anchor target position
(`src/placement.rs` lines 176-184). -/
theorem place_top_left_round_trip_counterexample :
    place_tooltip_top_left top_left_round_trip_placement
        ⟨100, 100⟩ ⟨50, 50⟩ ⟨20, 20⟩ ⟨10, 10⟩ ⟨1000, 1000⟩ ⟨1000, 1000⟩ ≠
      (⟨40, 40⟩ : Vec2) := by
  unfold place_tooltip_top_left place_tooltip_pos top_left_round_trip_placement
    clamp_axis Val.resolve
  norm_num [min_def, max_def, Vec2.mk.injEq]

/-- C8 (amended): with tooltip anchor top-left, fixed top-left target
point, zero offsets and zero clamp padding, and provided the unclamped
center lies inside the clamp range on both axes, the top-left position
computed before pixel-grid rounding equals the *stored cursor position
plus* the target element's top-left (its center minus half its size); it
equals the target's top-left exactly only when the stored cursor position
is zero. -/
theorem place_top_left_round_trip (c tt ts tsz vs pb : Vec2)
    (hx1 : tsz.x / 2 ≤ c.x + (tt.x - ts.x / 2) + tsz.x / 2)
    (hx2 : c.x + (tt.x - ts.x / 2) + tsz.x / 2 ≤ vs.x - tsz.x / 2)
    (hy1 : tsz.y / 2 ≤ c.y + (tt.y - ts.y / 2) + tsz.y / 2)
    (hy2 : c.y + (tt.y - ts.y / 2) + tsz.y / 2 ≤ vs.y - tsz.y / 2) :
    place_tooltip_top_left top_left_round_trip_placement c tt ts tsz vs pb =
      ⟨c.x + (tt.x - ts.x / 2), c.y + (tt.y - ts.y / 2)⟩ := by
  unfold place_tooltip_top_left place_tooltip_pos top_left_round_trip_placement
  simp only [Val.resolve, Option.getD_some]
  have ex : clamp_axis (tsz.x / 2) (0 * 1) (0 * 1) vs.x
      (c.x + (tt.x - ts.x * (-1 / 2) * (-1)) + tsz.x * (-1 / 2) * (-1) + 0 * 1) =
      c.x + (tt.x - ts.x / 2) + tsz.x / 2 := by
    have e1 : c.x + (tt.x - ts.x * (-1 / 2) * (-1)) + tsz.x * (-1 / 2) * (-1) + 0 * 1 =
        c.x + (tt.x - ts.x / 2) + tsz.x / 2 := by ring
    rw [e1]
    exact clamp_axis_of_le (by linarith) (by linarith)
  have ey : clamp_axis (tsz.y / 2) (0 * 1) (0 * 1) vs.y
      (c.y + (tt.y - ts.y * (1 / 2) * 1) + tsz.y * (1 / 2) * 1 + 0 * 1) =
      c.y + (tt.y - ts.y / 2) + tsz.y / 2 := by
    have e1 : c.y + (tt.y - ts.y * (1 / 2) * 1) + tsz.y * (1 / 2) * 1 + 0 * 1 =
        c.y + (tt.y - ts.y / 2) + tsz.y / 2 := by ring
    rw [e1]
    exact clamp_axis_of_le (by linarith) (by linarith)
  rw [ex, ey]
  simp only [Vec2.mk.injEq]
  constructor <;> ring

/-- Witness for C8 (amended): the scenario of the counterexample satisfies
the in-range hypotheses, and the computed top-left `(140, 140)` is indeed
the cursor `(100, 100)` plus the target's top-left `(40, 40)`. -/
theorem place_top_left_round_trip_witness :
    place_tooltip_top_left top_left_round_trip_placement
        ⟨100, 100⟩ ⟨50, 50⟩ ⟨20, 20⟩ ⟨10, 10⟩ ⟨1000, 1000⟩ ⟨1000, 1000⟩ =
      (⟨140, 140⟩ : Vec2) := by
  have h := place_top_left_round_trip ⟨100, 100⟩ ⟨50, 50⟩ ⟨20, 20⟩ ⟨10, 10⟩
    ⟨1000, 1000⟩ ⟨1000, 1000⟩ (by norm_num) (by norm_num) (by norm_num)
    (by norm_num)
  rw [h]
  norm_num

/-! ### C3: transfer layer gating -/

/-- A departing-tooltip snapshot for the layer-gating scenarios: state
`Inactive` with a nonzero leftover timer (a pending transfer window),
previous target `1`, previous transfer rule in group `0` at the given
layer. -/
def layer_gate_ctx (prev_layer : Int) : TooltipContext :=
  { state := TooltipState.Inactive
    target := 1
    timer := 5
    cursor_pos := ⟨0, 0⟩
    tooltip :=
      { activation := ⟨100, false⟩
        dismissal := ⟨10, false⟩
        transfer := ⟨some 0, prev_layer, 100, true⟩
        placement :=
          ⟨⟨-1/2, 1/2⟩, TargetPoint.Cursor false, Val.Px 0, Val.Px 0,
            ⟨Val.Px 0, Val.Px 0, Val.Px 0, Val.Px 0⟩⟩
        content := TooltipContent.Custom 7 } }

/-- A new target element's spec for the layer-gating scenarios: activation
delay `100` ms (nonzero), transfer group `0`, at the given layer. -/
def layer_gate_spec (new_layer : Int) : Tooltip :=
  { activation := ⟨100, false⟩
    dismissal := ⟨10, false⟩
    transfer := ⟨some 0, new_layer, 100, true⟩
    placement :=
      ⟨⟨-1/2, 1/2⟩, TargetPoint.Cursor false, Val.Px 0, Val.Px 0,
        ⟨Val.Px 0, Val.Px 0, Val.Px 0, Val.Px 0⟩⟩
    content := TooltipContent.Custom 8 }

/-- Counterexample to C3: with all other transfer conditions met
(`Inactive`, leftover timer `5 > 0`, shared transfer group `0`), the scan
(`src/context.rs` lines 167-184) *permits* the transfer from a departing
tooltip with layer 1 into a new target with layer 0 — the new state is
`Active`, the delay is skipped — and *denies* the transfer from layer 0
into layer 1 — the new state is `Delayed`. The claim states the opposite
in both directions; the code's own doc comment (`src/lib.rs` line 278,
"Only transfer to elements in the same layer or lower") matches the
code. -/
theorem layer_gate_counterexample :
    (scan_hit (layer_gate_ctx 1) 2 (layer_gate_spec 0)).1.state =
        TooltipState.Active ∧
      (scan_hit (layer_gate_ctx 0) 2 (layer_gate_spec 1)).1.state =
        TooltipState.Delayed := by
  constructor <;> decide

/-- C3 (amended): within the transfer window and with all other transfer
conditions met (state `Inactive`, nonzero leftover timer, shared transfer
group, nonzero new delay), the transfer is permitted — the new target's
delay is skipped and the state goes straight to `Active` — precisely when
the new target's transfer layer is ≤ the departing tooltip's transfer
layer; so layer 1 → layer 0 is permitted and layer 0 → layer 1 is denied
(the new target obeys its own configured delay). -/
theorem layer_gate (ctx : TooltipContext) (e : Nat) (t : Tooltip) (g : Int)
    (hst : ctx.state = TooltipState.Inactive) (htm : 0 < ctx.timer)
    (hg1 : ctx.tooltip.transfer.group = some g)
    (hg2 : t.transfer.group = some g)
    (hd : t.activation.delay ≠ 0) :
    (scan_hit ctx e t).1.state = TooltipState.Active ↔
      t.transfer.layer ≤ ctx.tooltip.transfer.layer := by
  have hno : ¬(ctx.target = e ∧ ctx.state ≠ TooltipState.Inactive) := by
    rintro ⟨-, h⟩; exact h hst
  have hgm : transfer_groups_match ctx.tooltip.transfer.group
      t.transfer.group = true := by
    rw [transfer_groups_match_iff]; exact ⟨g, hg1, hg2⟩
  have key : (t.activation.delay = 0 ∨
      (ctx.state = TooltipState.Inactive ∧ 0 < ctx.timer ∧
        t.transfer.layer ≤ ctx.tooltip.transfer.layer ∧
        (transfer_groups_match ctx.tooltip.transfer.group
            t.transfer.group = true ∨
          ctx.target = e))) ↔
      t.transfer.layer ≤ ctx.tooltip.transfer.layer := by
    constructor
    · rintro (h | ⟨-, -, h, -⟩)
      · exact absurd h hd
      · exact h
    · intro h
      exact Or.inr ⟨hst, htm, h, Or.inl hgm⟩
  simp only [scan_hit, if_neg hno]
  split_ifs with hC
  · simpa using key.mp hC
  · simpa using fun hh => hC (key.mpr hh)

/-- Witness for C3 (amended): instantiating the amended claim at the
counterexample scenarios — layer 1 → layer 0 activates immediately,
layer 0 → layer 1 stays `Delayed`. -/
theorem layer_gate_witness :
    (scan_hit (layer_gate_ctx 1) 2 (layer_gate_spec 0)).1.state =
        TooltipState.Active ∧
      ¬(scan_hit (layer_gate_ctx 0) 2 (layer_gate_spec 1)).1.state =
        TooltipState.Active := by
  constructor
  · exact (layer_gate (layer_gate_ctx 1) 2 (layer_gate_spec 0) 0 rfl
      (by decide) rfl rfl (by decide)).mpr (by decide)
  · intro h
    have := (layer_gate (layer_gate_ctx 0) 2 (layer_gate_spec 1) 0 rfl
      (by decide) rfl rfl (by decide)).mp h
    exact absurd this (by decide)

/-! ### C2: immediate activation on target switch -/

/-- C2: when the target scan reaches a new hovered target element (after
any number of entries it skips, and not the still-hovering-same-target
case), the resolver enters `Active` immediately if and only if the new
element's configured delay is zero, or the machine is `Inactive` with a
nonzero leftover timer and the previous tooltip's transfer layer is ≥ the
new element's transfer layer and (both transfer groups are present and
equal, or the new target equals the previous target); otherwise it enters
`Delayed`. In either case the timer is reset to the new element's
configured delay and the new element's full spec is snapshotted into the
context (with the dismissal distance squared). -/
theorem switch_target_activation (pre rest : List StackEntry)
    (ctx : TooltipContext) (e : Nat) (t : Tooltip)
    (hpre : ∀ x ∈ pre, skipped_entry x = true)
    (hnew : ¬(ctx.target = e ∧ ctx.state ≠ TooltipState.Inactive)) :
    (scan_stack ctx
        (pre ++ ⟨e, some (t, Interaction.Hovered)⟩ :: rest)).2 = true ∧
    (scan_stack ctx
        (pre ++ ⟨e, some (t, Interaction.Hovered)⟩ :: rest)).1.target = e ∧
    (scan_stack ctx
        (pre ++ ⟨e, some (t, Interaction.Hovered)⟩ :: rest)).1.timer =
      t.activation.delay ∧
    (scan_stack ctx
        (pre ++ ⟨e, some (t, Interaction.Hovered)⟩ :: rest)).1.tooltip =
      squared_snapshot t ∧
    ((scan_stack ctx
        (pre ++ ⟨e, some (t, Interaction.Hovered)⟩ :: rest)).1.state =
        TooltipState.Active ∨
      (scan_stack ctx
        (pre ++ ⟨e, some (t, Interaction.Hovered)⟩ :: rest)).1.state =
        TooltipState.Delayed) ∧
    ((scan_stack ctx
        (pre ++ ⟨e, some (t, Interaction.Hovered)⟩ :: rest)).1.state =
        TooltipState.Active ↔
      t.activation.delay = 0 ∨
        (ctx.state = TooltipState.Inactive ∧ 0 < ctx.timer ∧
          t.transfer.layer ≤ ctx.tooltip.transfer.layer ∧
          ((∃ g, ctx.tooltip.transfer.group = some g ∧
              t.transfer.group = some g) ∨
            ctx.target = e))) := by
  rw [scan_stack_append_skips pre _ ctx hpre]
  simp only [scan_stack, scan_hit, if_neg hnew]
  refine ⟨trivial, trivial, trivial, trivial, ?_, ?_⟩
  · split_ifs <;> simp
  · rw [← transfer_groups_match_iff]
    split_ifs with hC
    · simpa using hC
    · simpa using fun hh => hC hh

/-- A fresh resolver context for the C2 witness: state `Inactive` with no
leftover timer (no pending transfer window). -/
def fresh_hover_ctx : TooltipContext :=
  { state := TooltipState.Inactive
    target := 1
    timer := 0
    cursor_pos := ⟨0, 0⟩
    tooltip :=
      { activation := ⟨100, false⟩
        dismissal := ⟨10, false⟩
        transfer := ⟨some 0, 0, 100, true⟩
        placement :=
          ⟨⟨-1/2, 1/2⟩, TargetPoint.Cursor false, Val.Px 0, Val.Px 0,
            ⟨Val.Px 0, Val.Px 0, Val.Px 0, Val.Px 0⟩⟩
        content := TooltipContent.Custom 7 } }

/-- A newly hovered element's spec for the C2 witness: activation delay
`100` ms, transfer group `0`, layer `0`. -/
def fresh_hover_spec : Tooltip :=
  { activation := ⟨100, false⟩
    dismissal := ⟨10, false⟩
    transfer := ⟨some 0, 0, 100, true⟩
    placement :=
      ⟨⟨-1/2, 1/2⟩, TargetPoint.Cursor false, Val.Px 0, Val.Px 0,
        ⟨Val.Px 0, Val.Px 0, Val.Px 0, Val.Px 0⟩⟩
    content := TooltipContent.Custom 8 }

/-- Witness for C2: a fresh hover (previous state `Inactive`, timer `0`) of
an element with nonzero delay enters `Delayed` with the timer reset to the
delay; the delay `100` is nonzero and no transfer window is pending, so
the "immediate" condition of the claim is false. -/
theorem switch_target_activation_witness :
    (scan_stack fresh_hover_ctx
        [⟨9, some (fresh_hover_spec, Interaction.Hovered)⟩]).1.timer = 100 ∧
      (scan_stack fresh_hover_ctx
        [⟨9, some (fresh_hover_spec, Interaction.Hovered)⟩]).1.state =
        TooltipState.Delayed := by
  have h := switch_target_activation [] [] fresh_hover_ctx 9
    fresh_hover_spec (by intro x hx; cases hx) (by decide)
  refine ⟨by simpa using h.2.2.1, ?_⟩
  rcases h.2.2.2.2.1 with hs | hs
  · have := h.2.2.2.2.2.mp hs
    exact absurd this (by decide)
  · simpa using hs

/-! ### Phase-preservation lemmas -/

theorem cursor_update_tooltip (ctx : TooltipContext) (cur : Option Vec2) :
    (cursor_update ctx cur).tooltip = ctx.tooltip := by
  cases cur with
  | none => rfl
  | some p =>
    simp only [cursor_update]
    split_ifs <;> rfl

theorem timer_tick_tooltip (ctx : TooltipContext) (d : Nat) :
    (timer_tick ctx d).tooltip = ctx.tooltip := by
  simp only [timer_tick]
  split_ifs <;> rfl

/-- C5: if the state is `Active` and the squared distance between the live
cursor position and the stored activation point exceeds the snapshotted
dismissal threshold — the configured dismissal distance squared, as
recorded by `squared_snapshot` when the spec became governing — the
resolver's state at the end of that same frame is `Dismissed` (here with
the same target still hovered, so the scan's same-target branch keeps the
dismissal in place). -/
theorem dismiss_on_distance (pc d tgt : Nat) (ctx : TooltipContext)
    (spec spec2 : Tooltip) (p : Vec2)
    (hstate : ctx.state = TooltipState.Active)
    (htarget : ctx.target = tgt)
    (hsnap : ctx.tooltip = squared_snapshot spec)
    (hdist : ctx.cursor_pos.distance_squared p >
      spec.dismissal.on_distance * spec.dismissal.on_distance) :
    (update_tooltip_context pc ctx (some p) d
        [⟨tgt, some (spec2, Interaction.Hovered)⟩]).1.state =
      TooltipState.Dismissed := by
  have h1 : cursor_update ctx (some p) =
      { ctx with state := TooltipState.Dismissed, cursor_pos := p } := by
    simp only [cursor_update]
    have c1 : ¬(ctx.cursor_pos ≠ p ∧ ctx.state = TooltipState.Delayed ∧
        ctx.tooltip.activation.reset_delay_on_cursor_move = true) := by
      rintro ⟨-, h, -⟩
      rw [hstate] at h
      cases h
    rw [if_neg c1]
    have c2 : ctx.state = TooltipState.Active ∧
        ctx.cursor_pos.distance_squared p >
          ctx.tooltip.dismissal.on_distance := by
      refine ⟨hstate, ?_⟩
      rw [hsnap]
      exact hdist
    rw [if_pos c2]
    rw [if_pos (Or.inl (by simp))]
  have h2 : timer_tick (cursor_update ctx (some p)) d =
      { ctx with state := TooltipState.Dismissed, cursor_pos := p } := by
    rw [h1]
    simp only [timer_tick]
    rw [if_neg (by simp)]
  have h3 : scan_hit
      { ctx with state := TooltipState.Dismissed, cursor_pos := p } tgt spec2 =
      (({ state := TooltipState.Dismissed, target := ctx.target,
          timer := ctx.timer, cursor_pos := p,
          tooltip := squared_snapshot spec2 } : TooltipContext), true) := by
    unfold scan_hit
    rw [if_pos]
    exact ⟨htarget, by simp⟩
  simp only [update_tooltip_context, h2, scan_stack, h3]
  simp

/-- C6: on a frame whose scan finds no qualifying target (every stack entry
is skipped) while the state after the cursor and timer phases is not
`Inactive`, the resolver transitions to `Inactive` and sets the timer to
the outgoing tooltip's transfer timeout if the outgoing state was `Active`
or the outgoing transfer rule has from-active = false, and to `0`
otherwise (no transfer grace period). -/
theorem lose_target (pc d : Nat) (cursor : Option Vec2)
    (ctx : TooltipContext) (stack : List StackEntry)
    (hstack : ∀ e ∈ stack, skipped_entry e = true)
    (hni : (timer_tick (cursor_update ctx cursor) d).state ≠
      TooltipState.Inactive) :
    (update_tooltip_context pc ctx cursor d stack).1.state =
        TooltipState.Inactive ∧
      (update_tooltip_context pc ctx cursor d stack).1.timer =
        (if (timer_tick (cursor_update ctx cursor) d).state =
              TooltipState.Active ∨
            ctx.tooltip.transfer.from_active = false then
          ctx.tooltip.transfer.timeout
        else 0) := by
  have htt : (timer_tick (cursor_update ctx cursor) d).tooltip =
      ctx.tooltip := by
    rw [timer_tick_tooltip, cursor_update_tooltip]
  simp only [update_tooltip_context,
    scan_stack_skips stack (timer_tick (cursor_update ctx cursor) d) hstack]
  rw [if_pos ⟨trivial, hni⟩]
  unfold drop_target
  rw [htt]
  exact ⟨by trivial, by trivial⟩

/-- Witness for C5: concrete instance — active tooltip snapshotted from a
spec with dismissal distance `10` (threshold `100`), cursor moves from
`(0, 0)` to `(50, 50)` (squared distance `5000 > 100`): the frame ends
`Dismissed`. -/
theorem dismiss_on_distance_witness :
    (update_tooltip_context 0
        { state := TooltipState.Active
          target := 1
          timer := 0
          cursor_pos := ⟨0, 0⟩
          tooltip := squared_snapshot fresh_hover_spec }
        (some ⟨50, 50⟩) 16
        [⟨1, some (fresh_hover_spec, Interaction.Hovered)⟩]).1.state =
      TooltipState.Dismissed := by
  apply dismiss_on_distance 0 16 1 _ fresh_hover_spec fresh_hover_spec
    ⟨50, 50⟩ rfl rfl rfl
  show ((0 : ℚ) - 50) * ((0 : ℚ) - 50) + ((0 : ℚ) - 50) * ((0 : ℚ) - 50) >
    (10 : ℚ) * 10
  norm_num

/-- Witness for C6: an `Active` context (transfer timeout `100`,
from-active = true) loses its target on an empty stack: the state drops to
`Inactive` and the timer becomes the transfer timeout `100`. -/
theorem lose_target_witness :
    (update_tooltip_context 0
        { state := TooltipState.Active
          target := 1
          timer := 0
          cursor_pos := ⟨0, 0⟩
          tooltip := fresh_hover_spec }
        none 16 []).1.state = TooltipState.Inactive ∧
      (update_tooltip_context 0
        { state := TooltipState.Active
          target := 1
          timer := 0
          cursor_pos := ⟨0, 0⟩
          tooltip := fresh_hover_spec }
        none 16 []).1.timer = 100 := by
  have h := lose_target 0 16 none
    { state := TooltipState.Active
      target := 1
      timer := 0
      cursor_pos := ⟨0, 0⟩
      tooltip := fresh_hover_spec }
    [] (by intro e he; cases he) (by decide)
  refine ⟨h.1, ?_⟩
  rw [h.2]
  decide

/-! ### C4: same-target re-hover while Active -/

/-- Counterexample to C4: on a frame where the same target (entity 1) is
still hovered and the state is `Active`, the resolver *does* re-emit the
notifications — it writes `ShowTooltip` and `HideTooltip` for the
previously shown content entity (entity 8) — because the emission
condition of `src/context.rs` line 200 includes `found_target`. The claim
asserts no hide or show notification is re-emitted on such frames. -/
theorem same_target_reemit_counterexample :
    (update_tooltip_context 0
        { state := TooltipState.Active, target := 1, timer := 0,
          cursor_pos := ⟨5, 5⟩,
          tooltip := squared_snapshot fresh_hover_spec }
        none 16
        [⟨1, some (fresh_hover_spec, Interaction.Hovered)⟩]).2.show_tooltip =
        true ∧
      (update_tooltip_context 0
        { state := TooltipState.Active, target := 1, timer := 0,
          cursor_pos := ⟨5, 5⟩,
          tooltip := squared_snapshot fresh_hover_spec }
        none 16
        [⟨1, some (fresh_hover_spec, Interaction.Hovered)⟩]).2.hide_tooltip =
        some 8 := by
  constructor <;> decide

/-- C4 (amended): while the same target element remains hovered with state
`Active`, a per-frame re-scan that finds that same target again keeps the
state `Active`, does not reset the countdown timer, keeps the target, and
re-snapshots the element's current spec into the context (so content
changes made by the application are propagated into the displayed
content); however, it re-emits a `HideTooltip` notification for the
previously shown content entity followed by a `ShowTooltip` notification
on every such frame (this hide/show pair is how the refreshed content
reaches the screen). -/
theorem same_target_refresh (pc d tgt : Nat) (ctx : TooltipContext)
    (spec : Tooltip) (p : Vec2)
    (hstate : ctx.state = TooltipState.Active)
    (htarget : ctx.target = tgt)
    (hnd : ¬(ctx.cursor_pos.distance_squared p >
      ctx.tooltip.dismissal.on_distance)) :
    (update_tooltip_context pc ctx (some p) d
        [⟨tgt, some (spec, Interaction.Hovered)⟩]).1.state =
        TooltipState.Active ∧
      (update_tooltip_context pc ctx (some p) d
        [⟨tgt, some (spec, Interaction.Hovered)⟩]).1.timer = ctx.timer ∧
      (update_tooltip_context pc ctx (some p) d
        [⟨tgt, some (spec, Interaction.Hovered)⟩]).1.target = tgt ∧
      (update_tooltip_context pc ctx (some p) d
        [⟨tgt, some (spec, Interaction.Hovered)⟩]).1.tooltip =
        squared_snapshot spec ∧
      (update_tooltip_context pc ctx (some p) d
        [⟨tgt, some (spec, Interaction.Hovered)⟩]).2.hide_tooltip =
        some (content_entity pc ctx.tooltip.content) ∧
      (update_tooltip_context pc ctx (some p) d
        [⟨tgt, some (spec, Interaction.Hovered)⟩]).2.show_tooltip = true := by
  have c1 : ¬(ctx.cursor_pos ≠ p ∧ ctx.state = TooltipState.Delayed ∧
      ctx.tooltip.activation.reset_delay_on_cursor_move = true) := by
    rintro ⟨-, h, -⟩
    rw [hstate] at h
    cases h
  have c2 : ¬(ctx.state = TooltipState.Active ∧
      ctx.cursor_pos.distance_squared p >
        ctx.tooltip.dismissal.on_distance) := by
    rintro ⟨-, h⟩
    exact hnd h
  have h1 : cursor_update ctx (some p) = ctx ∨
      cursor_update ctx (some p) = { ctx with cursor_pos := p } := by
    simp only [cursor_update]
    rw [if_neg c1, if_neg c2]
    by_cases hf : ctx.tooltip.placement.target_point = TargetPoint.Cursor true
    · right
      rw [if_pos (Or.inr hf)]
    · left
      rw [if_neg]
      rintro (h | h)
      · exact h hstate
      · exact hf h
  have hAs : (cursor_update ctx (some p)).state = TooltipState.Active := by
    rcases h1 with h1 | h1 <;> rw [h1] <;> exact hstate
  have hAt : (cursor_update ctx (some p)).target = tgt := by
    rcases h1 with h1 | h1 <;> rw [h1] <;> exact htarget
  have hAm : (cursor_update ctx (some p)).timer = ctx.timer := by
    rcases h1 with h1 | h1 <;> rw [h1]
  have hAtt : (cursor_update ctx (some p)).tooltip = ctx.tooltip :=
    cursor_update_tooltip ctx (some p)
  simp only [update_tooltip_context]
  generalize hg : cursor_update ctx (some p) = cA at hAs hAt hAm hAtt
  have h2 : timer_tick cA d = cA := by
    simp only [timer_tick]
    rw [if_neg]
    rintro (h | h) <;> rw [hAs] at h <;> cases h
  have h3 : scan_hit cA tgt spec =
      ({ cA with tooltip := squared_snapshot spec }, true) := by
    unfold scan_hit
    rw [if_pos ⟨hAt, by rw [hAs]; simp⟩]
  simp only [h2, scan_stack, h3]
  simp [hAs, hAt, hAm, hstate, htarget, content_entity]


/-- Witness for C4 (amended): concrete same-target `Active` frame — the
timer stays `0`, the snapshot is refreshed, and the show notification is
re-emitted. -/
theorem same_target_refresh_witness :
    (update_tooltip_context 0
        { state := TooltipState.Active, target := 1, timer := 0,
          cursor_pos := ⟨5, 5⟩,
          tooltip := squared_snapshot fresh_hover_spec }
        (some ⟨5, 5⟩) 16
        [⟨1, some (fresh_hover_spec, Interaction.Hovered)⟩]).1.timer = 0 ∧
      (update_tooltip_context 0
        { state := TooltipState.Active, target := 1, timer := 0,
          cursor_pos := ⟨5, 5⟩,
          tooltip := squared_snapshot fresh_hover_spec }
        (some ⟨5, 5⟩) 16
        [⟨1, some (fresh_hover_spec, Interaction.Hovered)⟩]).1.tooltip =
        squared_snapshot fresh_hover_spec ∧
      (update_tooltip_context 0
        { state := TooltipState.Active, target := 1, timer := 0,
          cursor_pos := ⟨5, 5⟩,
          tooltip := squared_snapshot fresh_hover_spec }
        (some ⟨5, 5⟩) 16
        [⟨1, some (fresh_hover_spec, Interaction.Hovered)⟩]).2.show_tooltip =
        true := by
  have h := same_target_refresh 0 16 1
    { state := TooltipState.Active, target := 1, timer := 0,
      cursor_pos := ⟨5, 5⟩,
      tooltip := squared_snapshot fresh_hover_spec }
    fresh_hover_spec ⟨5, 5⟩ rfl rfl
    (by
      show ¬(((5 : ℚ) - 5) * ((5 : ℚ) - 5) + ((5 : ℚ) - 5) * ((5 : ℚ) - 5) >
        (10 : ℚ) * 10)
      norm_num)
  exact ⟨h.2.1, h.2.2.2.1, h.2.2.2.2.2⟩

/-! ### C10: 16-bit millisecond timers -/

/-- The cursor phase keeps the timer and spec within `u16` range: it only
ever writes the snapshot's own activation delay into the timer. -/
theorem cursor_update_wf (ctx : TooltipContext) (cur : Option Vec2)
    (h : ContextWf ctx) : ContextWf (cursor_update ctx cur) := by
  cases cur with
  | none => exact h
  | some p =>
    simp only [cursor_update]
    split_ifs <;> first | exact h | exact ⟨h.2.1, h.2⟩

/-- The timer phase only decreases the timer, so it stays within `u16`
range. -/
theorem timer_tick_wf (ctx : TooltipContext) (d : Nat) (h : ContextWf ctx) :
    ContextWf (timer_tick ctx d) := by
  simp only [timer_tick]
  split_ifs <;>
    first
      | exact h
      | exact ⟨lt_of_le_of_lt (Nat.sub_le _ _) h.1, h.2⟩

/-- A scan hit writes either the old timer or the new element's delay into
the timer, and snapshots a spec from the stack: `u16` range is
preserved. -/
theorem scan_hit_wf (ctx : TooltipContext) (e : Nat) (t : Tooltip)
    (h : ContextWf ctx) (ht : TooltipWf t) :
    ContextWf (scan_hit ctx e t).1 := by
  unfold scan_hit
  split_ifs <;> first | exact ⟨h.1, ht⟩ | exact ⟨ht.1, ht⟩

/-- The whole scan preserves `u16` range when every spec in the stack is in
range. -/
theorem scan_stack_wf (l : List StackEntry) (ctx : TooltipContext)
    (h : ContextWf ctx) (hs : StackWf l) : ContextWf (scan_stack ctx l).1 := by
  induction l generalizing ctx with
  | nil => exact h
  | cons e rest ih =>
    have hrest : StackWf rest := fun x hx => hs x (List.mem_cons_of_mem _ hx)
    obtain ⟨ent, hit⟩ := e
    rcases hit with _ | ⟨t, i⟩
    · exact ih ctx h hrest
    · have ht : TooltipWf t :=
        hs ⟨ent, some (t, i)⟩ (List.mem_cons_self _ _) t i rfl
      cases i
      · simp only [scan_stack]
        split_ifs
        · exact ⟨h.1, h.2.1, ht.2⟩
        · exact scan_hit_wf ctx ent t h ht
      · exact scan_hit_wf ctx ent t h ht
      · exact ih ctx h hrest

/-- The no-target branch writes the outgoing transfer timeout (or zero)
into the timer: `u16` range is preserved. -/
theorem drop_target_wf (ctx : TooltipContext) (h : ContextWf ctx) :
    ContextWf (drop_target ctx) := by
  unfold drop_target
  refine ⟨?_, h.2⟩
  show (if _ then ctx.tooltip.transfer.timeout else 0) < 65536
  split_ifs
  · exact h.2.2
  · norm_num

/-- C10: the countdown timer and all delays are 16-bit millisecond values.
First: whenever the state is `Inactive` or `Delayed` the timer phase
subtracts the frame delta reduced modulo `2 ^ 16` (the Rust cast
`as_millis() as u16`), with `Nat` subtraction saturating at zero. Second:
a frame whose millisecond delta is an exact multiple of `65536` subtracts
nothing from the timer. Third: the resolver preserves the `u16` range
invariant — if the context's timer, activation delay and transfer timeout
are below `65536` and every spec in the stack is too, so are they after
any frame, so no activation delay or transfer timeout above `65535` ms can
ever enter the context. -/
theorem timer_u16 (pc d : Nat) (cursor : Option Vec2) (ctx : TooltipContext)
    (stack : List StackEntry) :
    ((ctx.state = TooltipState.Inactive ∨ ctx.state = TooltipState.Delayed) →
      (timer_tick ctx d).timer = ctx.timer - d % 65536) ∧
    (65536 ∣ d → (timer_tick ctx d).timer = ctx.timer) ∧
    (ContextWf ctx → StackWf stack →
      ContextWf (update_tooltip_context pc ctx cursor d stack).1) := by
  refine ⟨?_, ?_, ?_⟩
  · intro h
    simp only [timer_tick, if_pos h]
    split_ifs <;> rfl
  · intro h
    obtain ⟨k, rfl⟩ := h
    have h0 : 65536 * k % 65536 = 0 := Nat.mul_mod_right 65536 k
    simp only [timer_tick, h0, Nat.sub_zero]
    split_ifs <;> rfl
  · intro hc hs
    simp only [update_tooltip_context]
    have w : ContextWf
        (scan_stack (timer_tick (cursor_update ctx cursor) d) stack).1 :=
      scan_stack_wf stack _ (timer_tick_wf _ d (cursor_update_wf ctx cursor hc))
        hs
    split_ifs
    · exact drop_target_wf _ w
    · exact w

/-- Witness for C10: an `Inactive` context with timer `5` ticks down by a
`3` ms delta to `2`; a delta of `131072 = 2 * 65536` ms subtracts nothing;
and a frame on a well-formed context preserves the `u16` range. -/
theorem timer_u16_witness :
    (timer_tick { fresh_hover_ctx with timer := 5 } 3).timer = 2 ∧
      (timer_tick { fresh_hover_ctx with timer := 5 } 131072).timer = 5 ∧
      ContextWf (update_tooltip_context 0 { fresh_hover_ctx with timer := 5 }
        none 70000 []).1 := by
  refine ⟨?_, ?_, ?_⟩
  · have h := (timer_u16 0 3 none { fresh_hover_ctx with timer := 5 } []).1
      (Or.inl rfl)
    rw [h]
    decide
  · have h := (timer_u16 0 131072 none
      { fresh_hover_ctx with timer := 5 } []).2.1 ⟨2, rfl⟩
    rw [h]
  · exact (timer_u16 0 70000 none { fresh_hover_ctx with timer := 5 } []).2.2
      (by exact ⟨by decide, by decide, by decide⟩)
      (by intro e he; cases he)

/-! ### C1: exact delay countdown -/

/-- With a stationary cursor and a snapshot whose dismissal threshold is a
square (as every snapshot written by the scan is), the cursor phase is the
identity: no movement is detected and the dismissal check cannot fire. -/
theorem cursor_update_stationary (ctx : TooltipContext)
    (hq : ∃ q, ctx.tooltip.dismissal.on_distance = q * q) :
    cursor_update ctx (some ctx.cursor_pos) = ctx := by
  obtain ⟨q, hq⟩ := hq
  have c1 : ¬(ctx.cursor_pos ≠ ctx.cursor_pos ∧
      ctx.state = TooltipState.Delayed ∧
      ctx.tooltip.activation.reset_delay_on_cursor_move = true) := by
    rintro ⟨h, -⟩
    exact h rfl
  have c2 : ¬(ctx.state = TooltipState.Active ∧
      ctx.cursor_pos.distance_squared ctx.cursor_pos >
        ctx.tooltip.dismissal.on_distance) := by
    rintro ⟨-, h⟩
    rw [Vec2.distance_squared_self, hq] at h
    exact absurd h (not_lt.mpr (mul_self_nonneg q))
  simp only [cursor_update, if_neg c1, if_neg c2]
  split_ifs <;> rfl

/-- One stationary frame of the countdown invariant: with the same target
hovered and the cursor unmoved, a context that is `s` elapsed ms into a
delay of `D` becomes `s + d` elapsed ms in after a frame of `d < 65536`
ms — `Delayed` with timer `D - (s + d)` while `s + d < D`, `Active` with
timer `0` once `D ≤ s + d`. -/
theorem step_stationary (pc tgt : Nat) (p : Vec2) (spec : Tooltip)
    (D s d : Nat) (hd : d < 65536) :
    (update_tooltip_context pc
        ⟨if D ≤ s then TooltipState.Active else TooltipState.Delayed, tgt,
          D - s, p, squared_snapshot spec⟩
        (some p) d [⟨tgt, some (spec, Interaction.Hovered)⟩]).1 =
      ⟨if D ≤ s + d then TooltipState.Active else TooltipState.Delayed, tgt,
        D - (s + d), p, squared_snapshot spec⟩ := by
  have hmod : d % 65536 = d := Nat.mod_eq_of_lt hd
  have htsub : D - s - d % 65536 = D - (s + d) := by
    rw [hmod, Nat.sub_sub]
  by_cases hs : D ≤ s
  · have hsd : D ≤ s + d := hs.trans (Nat.le_add_right s d)
    rw [if_pos hs, if_pos hsd, Nat.sub_eq_zero_of_le hs,
      Nat.sub_eq_zero_of_le hsd]
    have hcu : cursor_update
        (⟨TooltipState.Active, tgt, 0, p, squared_snapshot spec⟩ :
          TooltipContext) (some p) =
        ⟨TooltipState.Active, tgt, 0, p, squared_snapshot spec⟩ :=
      cursor_update_stationary _ ⟨spec.dismissal.on_distance, rfl⟩
    have htk : timer_tick
        (⟨TooltipState.Active, tgt, 0, p, squared_snapshot spec⟩ :
          TooltipContext) d =
        ⟨TooltipState.Active, tgt, 0, p, squared_snapshot spec⟩ := by
      simp only [timer_tick]
      rw [if_neg]
      rintro (h | h) <;> cases h
    have hsc : scan_hit
        (⟨TooltipState.Active, tgt, 0, p, squared_snapshot spec⟩ :
          TooltipContext) tgt spec =
        (⟨TooltipState.Active, tgt, 0, p, squared_snapshot spec⟩, true) := by
      unfold scan_hit
      rw [if_pos ⟨rfl, by simp⟩]
    simp only [update_tooltip_context, hcu, htk, scan_stack, hsc]
    simp
  · rw [if_neg hs]
    have hcu : cursor_update
        (⟨TooltipState.Delayed, tgt, D - s, p, squared_snapshot spec⟩ :
          TooltipContext) (some p) =
        ⟨TooltipState.Delayed, tgt, D - s, p, squared_snapshot spec⟩ :=
      cursor_update_stationary _ ⟨spec.dismissal.on_distance, rfl⟩
    by_cases hsd : D ≤ s + d
    · have ht0 : D - (s + d) = 0 := Nat.sub_eq_zero_of_le hsd
      have htk : timer_tick
          (⟨TooltipState.Delayed, tgt, D - s, p, squared_snapshot spec⟩ :
            TooltipContext) d =
          ⟨TooltipState.Active, tgt, 0, p, squared_snapshot spec⟩ := by
        simp only [timer_tick]
        rw [if_pos (Or.inr trivial),
          if_pos (⟨trivial, by rw [htsub]; exact ht0⟩ :
            True ∧ D - s - d % 65536 = 0),
          htsub, ht0]
      have hsc : scan_hit
          (⟨TooltipState.Active, tgt, 0, p, squared_snapshot spec⟩ :
            TooltipContext) tgt spec =
          (⟨TooltipState.Active, tgt, 0, p, squared_snapshot spec⟩, true) := by
        unfold scan_hit
        rw [if_pos ⟨rfl, by simp⟩]
      rw [if_pos hsd, ht0]
      simp only [update_tooltip_context, hcu, htk, scan_stack, hsc]
      simp
    · have htne : ¬(D - (s + d) = 0) := by omega
      have htk : timer_tick
          (⟨TooltipState.Delayed, tgt, D - s, p, squared_snapshot spec⟩ :
            TooltipContext) d =
          ⟨TooltipState.Delayed, tgt, D - (s + d), p,
            squared_snapshot spec⟩ := by
        simp only [timer_tick]
        rw [if_pos (Or.inr trivial),
          if_neg (show ¬(True ∧ D - s - d % 65536 = 0) by
            rintro ⟨-, h⟩
            rw [htsub] at h
            exact htne h),
          htsub]
      have hsc : scan_hit
          (⟨TooltipState.Delayed, tgt, D - (s + d), p,
            squared_snapshot spec⟩ : TooltipContext) tgt spec =
          (⟨TooltipState.Delayed, tgt, D - (s + d), p,
            squared_snapshot spec⟩, true) := by
        unfold scan_hit
        rw [if_pos ⟨rfl, by simp⟩]
      rw [if_neg hsd]
      simp only [update_tooltip_context, hcu, htk, scan_stack, hsc]
      simp

/-- The countdown invariant iterated over any list of frame deltas. -/
theorem run_stationary_inv (pc tgt : Nat) (p : Vec2) (spec : Tooltip)
    (D : Nat) :
    ∀ (ds : List Nat) (s : Nat), (∀ x ∈ ds, x < 65536) →
      run_stationary pc p tgt spec
        ⟨if D ≤ s then TooltipState.Active else TooltipState.Delayed, tgt,
          D - s, p, squared_snapshot spec⟩ ds =
      ⟨if D ≤ s + ds.sum then TooltipState.Active else TooltipState.Delayed,
        tgt, D - (s + ds.sum), p, squared_snapshot spec⟩ := by
  intro ds
  induction ds with
  | nil =>
    intro s _
    simp only [run_stationary, List.sum_nil, Nat.add_zero]
  | cons d rest ih =>
    intro s h
    simp only [run_stationary]
    rw [step_stationary pc tgt p spec D s d (h d (List.mem_cons_self _ _))]
    rw [ih (s + d) fun x hx => h x (List.mem_cons_of_mem _ hx)]
    rw [List.sum_cons, ← Nat.add_assoc]

/-- C1: for an element with activation delay `D > 0` and
reset-on-move = false, starting from the context the resolver holds right
after targeting the element (`Delayed`, timer `D`, spec snapshotted) and
holding the pointer stationary over it, after frames whose millisecond
deltas sum to `ds.sum` the state is `Active` exactly when the cumulative
elapsed time has reached `D` (`D ≤ ds.sum`) and still `Delayed` otherwise,
and the timer holds `D - ds.sum` (saturating `Nat` subtraction): each
frame decreases the timer by the frame delta saturating at zero, and the
flip to `Active` happens on the first frame where the cumulative elapsed
time reaches `D`, never earlier (instantiating `ds` with each prefix of
the frame sequence characterises every intermediate frame). Frame deltas
are below `2 ^ 16` so the `u16` cast is lossless (claim C10 covers the
cast). -/
theorem delay_activation (pc tgt : Nat) (p : Vec2) (spec : Tooltip) (D : Nat)
    (ds : List Nat) (ctx : TooltipContext)
    (hD : spec.activation.delay = D) (hD0 : 0 < D)
    (hreset : spec.activation.reset_delay_on_cursor_move = false)
    (hstate : ctx.state = TooltipState.Delayed) (htimer : ctx.timer = D)
    (htarget : ctx.target = tgt) (hcursor : ctx.cursor_pos = p)
    (hsnap : ctx.tooltip = squared_snapshot spec)
    (hds : ∀ x ∈ ds, x < 65536) :
    (run_stationary pc p tgt spec ctx ds).state =
        (if D ≤ ds.sum then TooltipState.Active else TooltipState.Delayed) ∧
      (run_stationary pc p tgt spec ctx ds).timer = D - ds.sum := by
  have hctx : ctx =
      ⟨if D ≤ 0 then TooltipState.Active else TooltipState.Delayed, tgt,
        D - 0, p, squared_snapshot spec⟩ := by
    obtain ⟨cst, ctg, ctm, ccp, ctt⟩ := ctx
    simp only at hstate htimer htarget hcursor hsnap
    rw [hstate, htimer, htarget, hcursor, hsnap, if_neg (by omega),
      Nat.sub_zero]
  rw [hctx, run_stationary_inv pc tgt p spec D ds 0 hds, Nat.zero_add]
  exact ⟨rfl, rfl⟩

/-- Witness for C1: delay `100` ms, four stationary frames of
`30 + 30 + 30 + 10 = 100` ms reach `Active`; the first three
(`90` ms `< 100`) leave the resolver `Delayed`. -/
theorem delay_activation_witness :
    (run_stationary 0 ⟨1, 2⟩ 3 fresh_hover_spec
        ⟨TooltipState.Delayed, 3, 100, ⟨1, 2⟩,
          squared_snapshot fresh_hover_spec⟩ [30, 30, 30, 10]).state =
        TooltipState.Active ∧
      (run_stationary 0 ⟨1, 2⟩ 3 fresh_hover_spec
        ⟨TooltipState.Delayed, 3, 100, ⟨1, 2⟩,
          squared_snapshot fresh_hover_spec⟩ [30, 30, 30]).state =
        TooltipState.Delayed := by
  constructor
  · have h := delay_activation 0 3 ⟨1, 2⟩ fresh_hover_spec 100
      [30, 30, 30, 10]
      ⟨TooltipState.Delayed, 3, 100, ⟨1, 2⟩,
        squared_snapshot fresh_hover_spec⟩
      rfl (by norm_num) rfl rfl rfl rfl rfl rfl
      (by intro x hx; fin_cases hx <;> norm_num)
    rw [h.1]
    norm_num
  · have h := delay_activation 0 3 ⟨1, 2⟩ fresh_hover_spec 100
      [30, 30, 30]
      ⟨TooltipState.Delayed, 3, 100, ⟨1, 2⟩,
        squared_snapshot fresh_hover_spec⟩
      rfl (by norm_num) rfl rfl rfl rfl rfl rfl
      (by intro x hx; fin_cases hx <;> norm_num)
    rw [h.1]
    norm_num

/-! ### C9: the two resolver revisions compared -/

/-- The timer phases of the two resolver revisions agree through the
context correspondence. -/
theorem to_old_timer_tick (c : TooltipContext) (d : Nat) :
    to_old_context (timer_tick c d) = old_timer_tick (to_old_context c) d := by
  simp only [timer_tick, old_timer_tick, to_old_context, to_old_entity]
  split_ifs <;> rfl

/-- C9 (amended): through the context correspondence `to_old_context`, the
cursor-tracking, dismissal and timer phases of the historical resolver
(`src/lib.rs`) and the current resolver (`src/context.rs`) make identical
transitions on identical per-frame inputs, provided the current spec's
target point is not follow-cursor (a concept the historical revision
lacks). The full per-frame updates diverge in the target scan and in
notification emission (see the counterexample). -/
theorem resolver_phase_agreement (ctx : TooltipContext)
    (cursor : Option Vec2) (d : Nat)
    (hf : ctx.tooltip.placement.target_point ≠ TargetPoint.Cursor true) :
    to_old_context (timer_tick (cursor_update ctx cursor) d) =
      old_timer_tick (old_cursor_update (to_old_context ctx) cursor) d := by
  have hcu : to_old_context (cursor_update ctx cursor) =
      old_cursor_update (to_old_context ctx) cursor := by
    cases cursor with
    | none => rfl
    | some p =>
      simp only [cursor_update, old_cursor_update, to_old_context,
        to_old_entity]
      split_ifs <;> first | rfl | (exfalso; tauto)
  rw [to_old_timer_tick, hcu]

/-- The pre-frame context of the divergence scenario: `Inactive` with a
leftover transfer-window timer of `5` ms, previous target `1`, previous
transfer rule with no group, layer `0`. -/
def divergence_ctx : TooltipContext :=
  { state := TooltipState.Inactive
    target := 1
    timer := 5
    cursor_pos := ⟨0, 0⟩
    tooltip :=
      { activation := ⟨100, false⟩
        dismissal := ⟨10, false⟩
        transfer := ⟨none, 0, 0, true⟩
        placement :=
          ⟨⟨-1/2, 1/2⟩, TargetPoint.Cursor false, Val.Px 0, Val.Px 0,
            ⟨Val.Px 0, Val.Px 0, Val.Px 0, Val.Px 0⟩⟩
        content := TooltipContent.Custom 7 } }

/-- The newly hovered element of the divergence scenario: entity `2`,
activation delay `100` ms, transfer rule with no group, layer `0`. -/
def divergence_spec : Tooltip :=
  { activation := ⟨100, false⟩
    dismissal := ⟨10, false⟩
    transfer := ⟨none, 0, 0, true⟩
    placement :=
      ⟨⟨-1/2, 1/2⟩, TargetPoint.Cursor false, Val.Px 0, Val.Px 0,
        ⟨Val.Px 0, Val.Px 0, Val.Px 0, Val.Px 0⟩⟩
    content := TooltipContent.Custom 8 }

/-- Counterexample to C9: on the identical frame input (no cursor, zero
delta, a single stack entry hovering entity `2`) and corresponding
contexts, the current resolver ends the frame `Delayed` while the
historical resolver ends it `Active`. The historical scan assigns
`ctx.target = entity` *before* evaluating the transfer condition
(`src/lib.rs` lines 520-526), so its `ctx.target == entity` disjunct is
always true and the missing shared group does not block the transfer; the
current scan evaluates the condition first (`src/context.rs` lines
167-179) and denies it. -/
theorem resolver_divergence_counterexample :
    (update_tooltip_context 0 divergence_ctx none 0
        [⟨2, some (divergence_spec, Interaction.Hovered)⟩]).1.state =
        TooltipState.Delayed ∧
      (old_update_tooltip_context 0 (to_old_context divergence_ctx) none 0
        [⟨2, some (to_old_tooltip divergence_spec,
          Interaction.Hovered)⟩]).1.state = TooltipState.Active := by
  constructor <;> decide

/-- Witness for C9 (amended): the phase agreement instantiated at the
divergence context (whose target point is not follow-cursor), a concrete
cursor position and a `7` ms delta. -/
theorem resolver_phase_agreement_witness :
    to_old_context (timer_tick (cursor_update divergence_ctx
        (some ⟨3, 4⟩)) 7) =
      old_timer_tick (old_cursor_update (to_old_context divergence_ctx)
        (some ⟨3, 4⟩)) 7 :=
  resolver_phase_agreement divergence_ctx (some ⟨3, 4⟩) 7 (by decide)
